import Mathlib

/-
Verification of the JARVIS-AR-Interface landmark-to-interaction core.

The embedding follows the TypeScript source:
  * `types` module: `Vector3`, `FaceData`, `HandData`;
  * `App.renderLoop`: the frame-skip-aware inference driver that writes
    `FaceData` / `HandData` from detector results;
  * `HolographicEarth.useFrame`: rotation-speed and target-scale mapping
    from `HandData`, with a three.js style `lerp` smoothing step;
  * `SmartHUD.updateHUD`: screen-space projection of `FaceData`.

Numbers are modelled as real numbers; detector landmark sets are modelled
as total functions from the landmark index to a point, matching the
external detector contract (a fixed-size ordered list of landmark points,
indices 0/4/8 for wrist/thumb-tip/index-tip, index 1 for the nose tip).
-/

namespace JarvisAR

/-- `Vector3` from the `types` module: a 3-component normalized coordinate. -/
structure Vector3 where
  x : ℝ
  y : ℝ
  z : ℝ

/-- `FaceData` from the `types` module. -/
structure FaceData where
  detected : Bool
  position : Vector3
  tilt : ℝ

/-- `HandData` from the `types` module. -/
structure HandData where
  detected : Bool
  isPinching : Bool
  pinchDistance : ℝ
  position : Vector3

/-- `initialFaceData` from `App`. -/
def initialFaceData : FaceData :=
  { detected := false
    position := { x := 0.5, y := 0.5, z := 0 }
    tilt := 0 }

/-- `initialHandData` from `App`. -/
def initialHandData : HandData :=
  { detected := false
    isPinching := false
    pinchDistance := 0
    position := { x := 0, y := 0, z := 0 } }

/-- One detected face or hand: an index-addressable set of landmark points,
as returned by the external detector. -/
def Landmarks : Type := ℕ → Vector3

/-- The face branch of `App.renderLoop` (lines 175-186): given the previous
`FaceData` and the detector result `faceResult.faceLandmarks`, produce the
newly written `FaceData`. -/
def faceTick (s : FaceData) (faceLandmarks : List Landmarks) : FaceData :=
  match faceLandmarks with
  | landmarks :: _ =>
      let nose := landmarks 1
      { detected := true
        position := { x := nose.x, y := nose.y, z := nose.z }
        tilt := 0 }
  | [] => { s with detected := false }

open Classical in
/-- The hand branch of `App.renderLoop` (lines 190-212): given the previous
`HandData` and the detector result `handResult.landmarks`, produce the newly
written `HandData`.  The pinch distance is the planar (z ignored) Euclidean
distance between landmark 4 (thumb tip) and landmark 8 (index fingertip). -/
noncomputable def handTick (s : HandData) (handLandmarks : List Landmarks) : HandData :=
  match handLandmarks with
  | landmarks :: _ =>
      let thumbTip := landmarks 4
      let indexTip := landmarks 8
      let distance :=
        Real.sqrt ((thumbTip.x - indexTip.x) ^ 2 + (thumbTip.y - indexTip.y) ^ 2)
      let handPos := landmarks 0
      { detected := true
        isPinching := decide (distance < 0.05)
        pinchDistance := distance
        position := { x := handPos.x, y := handPos.y, z := handPos.z } }
  | [] => { s with detected := false }

/-- The spec's description of `pinchDistance`: the 2D Euclidean distance
(z ignored) between two landmark points. -/
noncomputable def euclideanDist2D (p q : Vector3) : ℝ :=
  Real.sqrt ((p.x - q.x) ^ 2 + (p.y - q.y) ^ 2)

/-- State of the `renderLoop` driver in `App`: the `lastVideoTime` closure
variable together with the two shared mutable records. -/
structure LoopState where
  lastVideoTime : ℝ
  faceData : FaceData
  handData : HandData

/-- The driver state as first entered: `lastVideoTime = -1` with the two
initial records. -/
def initialLoopState : LoopState :=
  { lastVideoTime := -1, faceData := initialFaceData, handData := initialHandData }

/-- Inputs visible to one driver tick: the video's current presentation
timestamp and the results the two detectors would return on this frame. -/
structure TickInput where
  currentTime : ℝ
  faceLandmarksResult : List Landmarks
  handLandmarksResult : List Landmarks

/-- Observable outcome of one driver tick: the new driver state, how many
times each detector was invoked during the tick, and whether the tick
rescheduled itself (`requestAnimationFrame`). -/
structure TickResult where
  state : LoopState
  faceDetectorCalls : ℕ
  handDetectorCalls : ℕ
  rescheduled : Bool

open Classical in
/-- One tick of `App.renderLoop` (lines 169-215): if the video timestamp
differs from `lastVideoTime`, record it and run the face detector and hand
detector once each, writing both records; otherwise do nothing.  Either way
the loop reschedules itself at the end of the tick. -/
noncomputable def renderLoopTick (s : LoopState) (inp : TickInput) : TickResult :=
  if inp.currentTime ≠ s.lastVideoTime then
    { state :=
        { lastVideoTime := inp.currentTime
          faceData := faceTick s.faceData inp.faceLandmarksResult
          handData := handTick s.handData inp.handLandmarksResult }
      faceDetectorCalls := 1
      handDetectorCalls := 1
      rescheduled := true }
  else
    { state := s
      faceDetectorCalls := 0
      handDetectorCalls := 0
      rescheduled := true }

/-- `FaceData` records reachable by the inference loop: the initial record
and anything `faceTick` produces from a reachable record. -/
inductive FaceReachable : FaceData → Prop where
  | init : FaceReachable initialFaceData
  | step (s : FaceData) (r : List Landmarks) :
      FaceReachable s → FaceReachable (faceTick s r)

/-- `HandData` records reachable by the inference loop: the initial record
and anything `handTick` produces from a reachable record. -/
inductive HandReachable : HandData → Prop where
  | init : HandReachable initialHandData
  | step (s : HandData) (r : List Landmarks) :
      HandReachable s → HandReachable (handTick s r)

/-- `baseScale` from `HolographicEarth` (S0). -/
def baseScale : ℝ := 2.5

/-- The rotation-speed computation of `HolographicEarth.useFrame`
(lines 27-33): base rate 0.2, plus `(hand.position.x - 0.5) * 10` when a
hand is detected. -/
def rotationSpeedOf (hand : HandData) : ℝ :=
  let base : ℝ := 0.2
  if hand.detected then base + (hand.position.x - 0.5) * 10 else base

/-- The target-scale computation of `HolographicEarth.useFrame`
(lines 40-48): `baseScale` unless a detected hand is pinching, in which
case the pinch distance is scaled by 10, clamped to [0,1], and mapped to
`baseScale * (0.5 + pinchFactor * 1.5)`. -/
noncomputable def targetScaleOf (hand : HandData) : ℝ :=
  if hand.detected && hand.isPinching then
    let pinchFactor := max 0 (min 1 (hand.pinchDistance * 10))
    baseScale * (0.5 + pinchFactor * 1.5)
  else baseScale

/-- three.js `Vector3.lerp`: each component moves from `v` toward `w` by
the fraction `alpha`. -/
def Vector3.lerp (v w : Vector3) (alpha : ℝ) : Vector3 :=
  { x := v.x + (w.x - v.x) * alpha
    y := v.y + (w.y - v.y) * alpha
    z := v.z + (w.z - v.z) * alpha }

/-- The per-frame scale smoothing of `HolographicEarth.useFrame` (line 51):
the mesh scale is lerped toward the uniform target scale with factor 0.1. -/
noncomputable def scaleLerpStep (current : Vector3) (targetScale : ℝ) : Vector3 :=
  Vector3.lerp current { x := targetScale, y := targetScale, z := targetScale } 0.1

/-- The HUD panel style written by `SmartHUD.updateHUD`. -/
structure HUDStyle where
  translateX : ℝ
  translateY : ℝ
  opacity : ℝ
  systemStatus : String

/-- `SmartHUD.updateHUD` (lines 32-56): with a detected face, place the
panel at the mirrored-and-offset screen position of the face, fully opaque
and ONLINE; otherwise dim the panel to opacity 0.3 and show SEARCHING,
leaving the transform untouched. -/
def updateHUD (prev : HUDStyle) (face : FaceData)
    (innerWidth innerHeight : ℝ) : HUDStyle :=
  if face.detected then
    let x := (1 - face.position.x) * innerWidth
    let y := face.position.y * innerHeight
    let xOffset : ℝ := 180
    let yOffset : ℝ := -50
    { translateX := x + xOffset
      translateY := y + yOffset
      opacity := 1
      systemStatus := "ONLINE" }
  else
    { prev with opacity := 0.3, systemStatus := "SEARCHING..." }

/-- Claim C1: for every hand-landmark input with at least one hand, the
written `HandData` has `pinchDistance` equal to the 2D Euclidean distance
(z ignored) between the thumb-tip landmark (index 4) and the
index-fingertip landmark (index 8), and `isPinching` is true iff that
distance is strictly below 0.05; when the two landmarks coincide,
`isPinching` is true and `pinchDistance` is 0, and when the distance is at
least 0.05, `isPinching` is false. -/
theorem C1_pinch_detection (s : HandData) (hand : Landmarks) (rest : List Landmarks) :
    (handTick s (hand :: rest)).pinchDistance = euclideanDist2D (hand 4) (hand 8) ∧
    ((handTick s (hand :: rest)).isPinching = true ↔
      (handTick s (hand :: rest)).pinchDistance < 0.05) ∧
    (hand 4 = hand 8 →
      (handTick s (hand :: rest)).isPinching = true ∧
      (handTick s (hand :: rest)).pinchDistance = 0) ∧
    (0.05 ≤ euclideanDist2D (hand 4) (hand 8) →
      (handTick s (hand :: rest)).isPinching = false) := by
  refine ⟨rfl, ?_, ?_, ?_⟩
  · show decide _ = true ↔ _
    simp [handTick]
  · intro hcoincide
    have hz : euclideanDist2D (hand 4) (hand 8) = 0 := by
      simp [euclideanDist2D, hcoincide]
    constructor
    · show decide _ = true
      rw [decide_eq_true_eq]
      show euclideanDist2D (hand 4) (hand 8) < 0.05
      rw [hz]; norm_num
    · show euclideanDist2D (hand 4) (hand 8) = 0
      exact hz
  · intro hfar
    show decide _ = false
    rw [decide_eq_false_iff_not]
    show ¬ euclideanDist2D (hand 4) (hand 8) < 0.05
    exact not_lt.mpr hfar

/-- Witness for C1 at a concrete input: a hand whose thumb tip and index
tip coincide at the origin. -/
theorem C1_pinch_detection_witness :
    ((fun _ => { x := 0, y := 0, z := 0 } : Landmarks) 4 =
      (fun _ => { x := 0, y := 0, z := 0 } : Landmarks) 8) ∧
    (handTick initialHandData [fun _ => { x := 0, y := 0, z := 0 }]).isPinching = true ∧
    (handTick initialHandData [fun _ => { x := 0, y := 0, z := 0 }]).pinchDistance = 0 := by
  refine ⟨rfl, ?_⟩
  exact (C1_pinch_detection initialHandData (fun _ => { x := 0, y := 0, z := 0 }) []).2.2.1 rfl

/-- Claim C2: a driver tick whose video timestamp equals the last processed
timestamp invokes neither detector, leaves the driver state (and hence both
shared records) completely unchanged, and still reschedules the loop; a
tick whose timestamp differs records the new timestamp and invokes each
detector exactly once. -/
theorem C2_frame_skip (s : LoopState) (inp : TickInput) :
    (inp.currentTime = s.lastVideoTime →
      (renderLoopTick s inp).faceDetectorCalls = 0 ∧
      (renderLoopTick s inp).handDetectorCalls = 0 ∧
      (renderLoopTick s inp).state = s ∧
      (renderLoopTick s inp).rescheduled = true) ∧
    (inp.currentTime ≠ s.lastVideoTime →
      (renderLoopTick s inp).state.lastVideoTime = inp.currentTime ∧
      (renderLoopTick s inp).faceDetectorCalls = 1 ∧
      (renderLoopTick s inp).handDetectorCalls = 1 ∧
      (renderLoopTick s inp).rescheduled = true) := by
  constructor
  · intro heq
    simp [renderLoopTick, heq]
  · intro hne
    simp [renderLoopTick, hne]

/-- Witness for C2 at concrete inputs: from the initial driver state
(`lastVideoTime = -1`), a tick at timestamp -1 skips and a tick at
timestamp 0 runs both detectors once. -/
theorem C2_frame_skip_witness :
    (renderLoopTick initialLoopState
        { currentTime := -1, faceLandmarksResult := [], handLandmarksResult := [] }).faceDetectorCalls = 0 ∧
    (renderLoopTick initialLoopState
        { currentTime := -1, faceLandmarksResult := [], handLandmarksResult := [] }).state = initialLoopState ∧
    (renderLoopTick initialLoopState
        { currentTime := 0, faceLandmarksResult := [], handLandmarksResult := [] }).faceDetectorCalls = 1 ∧
    (renderLoopTick initialLoopState
        { currentTime := 0, faceLandmarksResult := [], handLandmarksResult := [] }).handDetectorCalls = 1 := by
  have hskip := (C2_frame_skip initialLoopState
    { currentTime := -1, faceLandmarksResult := [], handLandmarksResult := [] }).1 (by norm_num [initialLoopState])
  have hrun := (C2_frame_skip initialLoopState
    { currentTime := 0, faceLandmarksResult := [], handLandmarksResult := [] }).2 (by norm_num [initialLoopState])
  exact ⟨hskip.1, hskip.2.2.1, hrun.2.1, hrun.2.2.1⟩

/-- Claim C3: on a zero-face (resp. zero-hand) inference tick, `detected`
is set false and every other field keeps its last written value; hence
across any run of zero-detection ticks that follows a detection tick, the
position stays equal to the value written on that detection tick. -/
theorem C3_stale_on_loss (fs : FaceData) (hs : HandData) :
    (faceTick fs []).detected = false ∧
    (faceTick fs []).position = fs.position ∧
    (faceTick fs []).tilt = fs.tilt ∧
    (handTick hs []).detected = false ∧
    (handTick hs []).isPinching = hs.isPinching ∧
    (handTick hs []).pinchDistance = hs.pinchDistance ∧
    (handTick hs []).position = hs.position ∧
    (∀ n : ℕ, ((fun t => faceTick t []) ^[n] fs).position = fs.position) ∧
    (∀ s0 : FaceData, ∀ f : Landmarks, ∀ rest : List Landmarks, ∀ n : ℕ,
      (faceTick s0 (f :: rest)).detected = true ∧
      ((fun t => faceTick t []) ^[n] (faceTick s0 (f :: rest))).position =
        (faceTick s0 (f :: rest)).position ∧
      (n ≠ 0 →
        ((fun t => faceTick t []) ^[n] (faceTick s0 (f :: rest))).detected = false)) := by
  have hpos : ∀ n : ℕ, ∀ t : FaceData,
      ((fun t => faceTick t []) ^[n] t).position = t.position := by
    intro n
    induction n with
    | zero => intro t; rfl
    | succ k ih =>
        intro t
        rw [Function.iterate_succ_apply, ih]
        rfl
  refine ⟨rfl, rfl, rfl, rfl, rfl, rfl, rfl, fun n => hpos n fs, ?_⟩
  intro s0 f rest n
  refine ⟨rfl, hpos n _, ?_⟩
  intro hn
  obtain ⟨k, rfl⟩ := Nat.exists_eq_succ_of_ne_zero hn
  rw [Function.iterate_succ_apply']
  rfl

/-- Witness for C3 at a concrete input: a detection tick writing position
(0.3, 0.4, 0) followed by two zero-detection ticks keeps that position and
flips `detected` to false. -/
theorem C3_stale_on_loss_witness :
    ((fun t => faceTick t []) ^[2]
        (faceTick initialFaceData [fun _ => { x := 0.3, y := 0.4, z := 0 }])).position =
      (faceTick initialFaceData [fun _ => { x := 0.3, y := 0.4, z := 0 }]).position ∧
    ((fun t => faceTick t []) ^[2]
        (faceTick initialFaceData [fun _ => { x := 0.3, y := 0.4, z := 0 }])).detected = false := by
  have h := (C3_stale_on_loss initialFaceData initialHandData).2.2.2.2.2.2.2.2
    initialFaceData (fun _ => { x := 0.3, y := 0.4, z := 0 }) [] 2
  exact ⟨h.2.1, h.2.2 (by norm_num)⟩

/-- Claim C4: with a detected hand the computed rotation rate is
`0.2 + (handX - 0.5) * 10`; hand at x = 0.5 gives exactly the base rate
0.2, x = 1.0 gives `0.2 + 0.5 * 10`, x = 0.0 gives `0.2 - 0.5 * 10`; with
no hand detected the rate is exactly 0.2. -/
theorem C4_rotation_rate (hand : HandData) :
    (hand.detected = true →
      rotationSpeedOf hand = 0.2 + (hand.position.x - 0.5) * 10) ∧
    (hand.detected = false → rotationSpeedOf hand = 0.2) ∧
    (hand.detected = true → hand.position.x = 0.5 → rotationSpeedOf hand = 0.2) ∧
    (hand.detected = true → hand.position.x = 1.0 →
      rotationSpeedOf hand = 0.2 + 0.5 * 10) ∧
    (hand.detected = true → hand.position.x = 0.0 →
      rotationSpeedOf hand = 0.2 - 0.5 * 10) := by
  refine ⟨?_, ?_, ?_, ?_, ?_⟩
  · intro hdet; simp [rotationSpeedOf, hdet]
  · intro hdet; simp [rotationSpeedOf, hdet]
  · intro hdet hx
    simp only [rotationSpeedOf, hdet, hx, if_true]
    norm_num
  · intro hdet hx
    simp only [rotationSpeedOf, hdet, hx, if_true]
    norm_num
  · intro hdet hx
    simp only [rotationSpeedOf, hdet, hx, if_true]
    norm_num

/-- Witness for C4 at a concrete input: a detected hand centered at
x = 0.5 yields the base rotation rate 0.2. -/
theorem C4_rotation_rate_witness :
    rotationSpeedOf
      { detected := true, isPinching := false, pinchDistance := 0,
        position := { x := 0.5, y := 0, z := 0 } } = 0.2 := by
  exact (C4_rotation_rate
    { detected := true, isPinching := false, pinchDistance := 0,
      position := { x := 0.5, y := 0, z := 0 } }).2.2.1 rfl rfl

/-- Claim C5, counterexample: the claim says a pinching hand state always
gets the pinch-mapped target scale, but the code also requires
`hand.detected`; a stale record with `detected = false`, `isPinching = true`
and `pinchDistance = 0.04` gets the base scale 2.5, not the pinch-mapped
value 2.75. -/
theorem C5_target_scale_counterexample :
    targetScaleOf
      { detected := false, isPinching := true, pinchDistance := 0.04,
        position := { x := 0, y := 0, z := 0 } } = baseScale ∧
    baseScale ≠
      baseScale * (0.5 + max 0 (min 1 ((0.04 : ℝ) * 10)) * 1.5) := by
  constructor
  · simp [targetScaleOf]
  · have hmin : min 1 ((0.04 : ℝ) * 10) = 0.4 := by
      rw [min_eq_right]; norm_num; norm_num
    have hmax : max 0 (0.4 : ℝ) = 0.4 := by
      rw [max_eq_right]; norm_num
    rw [hmin, hmax]
    norm_num [baseScale]

/-- Claim C5, amended: for every per-frame object update, if the hand is
not detected or not pinching the target scale is the base scale S0 = 2.5;
if the hand is detected and pinching, the target scale is
`S0 * (0.5 + clamp(pinchDistance * 10, 0, 1) * 1.5)`; over detected
pinching states this mapping is monotone in the pinch distance, equals
0.5 * S0 at distance 0, and never exceeds 2 * S0, so a tighter pinch
shrinks the target toward 0.5 * S0 and a looser pinch grows it toward the
2 * S0 end of the range. -/
theorem C5_target_scale (hand : HandData) :
    (hand.detected = false ∨ hand.isPinching = false →
      targetScaleOf hand = baseScale) ∧
    (hand.detected = true → hand.isPinching = true →
      targetScaleOf hand =
        baseScale * (0.5 + max 0 (min 1 (hand.pinchDistance * 10)) * 1.5)) ∧
    (hand.detected = true → hand.isPinching = true → hand.pinchDistance = 0 →
      targetScaleOf hand = baseScale * 0.5) ∧
    (∀ h1 h2 : HandData, h1.detected = true → h1.isPinching = true →
      h2.detected = true → h2.isPinching = true →
      h1.pinchDistance ≤ h2.pinchDistance →
      targetScaleOf h1 ≤ targetScaleOf h2) ∧
    targetScaleOf hand ≤ baseScale * 2 := by
  have hformula : ∀ h : HandData, h.detected = true → h.isPinching = true →
      targetScaleOf h =
        baseScale * (0.5 + max 0 (min 1 (h.pinchDistance * 10)) * 1.5) := by
    intro h hdet hpinch
    simp [targetScaleOf, hdet, hpinch]
  have hbound : ∀ h : HandData, targetScaleOf h ≤ baseScale * 2 := by
    intro h
    by_cases hcond : h.detected && h.isPinching
    · have heq := hformula h (by
        cases hb : h.detected
        · rw [hb] at hcond; simp at hcond
        · rfl) (by
        cases hb : h.isPinching
        · rw [hb] at hcond; simp at hcond
        · rfl)
      rw [heq]
      have hclamp : max 0 (min 1 (h.pinchDistance * 10)) ≤ 1 :=
        max_le (by norm_num) (min_le_left _ _)
      have hS : (0 : ℝ) ≤ baseScale := by norm_num [baseScale]
      have : (0.5 : ℝ) + max 0 (min 1 (h.pinchDistance * 10)) * 1.5 ≤ 2 := by
        nlinarith [hclamp]
      nlinarith [hS, this]
    · have : targetScaleOf h = baseScale := by
        simp only [targetScaleOf]
        rw [if_neg hcond]
      rw [this]
      norm_num [baseScale]
  refine ⟨?_, hformula hand, ?_, ?_, hbound hand⟩
  · intro hcase
    simp only [targetScaleOf]
    rcases hcase with hd | hp
    · rw [if_neg]; rw [hd]; simp
    · rw [if_neg]; rw [hp]; simp
  · intro hdet hpinch hpd
    rw [hformula hand hdet hpinch, hpd]
    have : min 1 ((0 : ℝ) * 10) = 0 := by
      rw [min_eq_right]; norm_num; norm_num
    rw [this]
    simp
  · intro h1 h2 hd1 hp1 hd2 hp2 hle
    rw [hformula h1 hd1 hp1, hformula h2 hd2 hp2]
    have hc : max 0 (min 1 (h1.pinchDistance * 10)) ≤
        max 0 (min 1 (h2.pinchDistance * 10)) := by
      apply max_le_max le_rfl
      apply min_le_min le_rfl
      nlinarith [hle]
    have hS : (0 : ℝ) ≤ baseScale := by norm_num [baseScale]
    nlinarith [hc, hS]

/-- Witness for C5 at a concrete input: a detected pinching hand at
distance 0 gets target scale 0.5 * 2.5 = 1.25. -/
theorem C5_target_scale_witness :
    targetScaleOf
      { detected := true, isPinching := true, pinchDistance := 0,
        position := { x := 0, y := 0, z := 0 } } = baseScale * 0.5 := by
  exact (C5_target_scale
    { detected := true, isPinching := true, pinchDistance := 0,
      position := { x := 0, y := 0, z := 0 } }).2.2.1 rfl rfl rfl

/-- Claim C6: a detected pinching hand state with pinch distance 0.1 has
its normalized pinch factor clamped to 1 and gets target scale exactly
2 * S0; and no hand state whatsoever gets a target scale above 2 * S0. -/
theorem C6_scale_clamp (hand : HandData) (pos : Vector3) :
    targetScaleOf
      { detected := true, isPinching := true, pinchDistance := 0.1,
        position := pos } = baseScale * 2 ∧
    targetScaleOf hand ≤ baseScale * 2 := by
  constructor
  · have hmin : min 1 ((0.1 : ℝ) * 10) = 1 := by
      rw [min_eq_left]; norm_num
    have hmax : max 0 (1 : ℝ) = 1 := by
      rw [max_eq_right]; norm_num
    simp only [targetScaleOf, Bool.and_self, if_true]
    rw [hmin, hmax]
    norm_num [baseScale]
  · exact ((C5_target_scale hand).2.2.2.2)

/-- Claim C7: with a detected face the HUD panel is placed at
`((1 - nx) * width + 180, ny * height - 50)`, fully opaque and ONLINE;
a face at normalized (0.2, 0.3) on a 1000 by 800 viewport lands at
(980, 190); with no face the opacity drops to 0.3 and the status becomes
SEARCHING. -/
theorem C7_hud_projection (prev : HUDStyle) (face : FaceData) (w h : ℝ) :
    (face.detected = true →
      (updateHUD prev face w h).translateX = (1 - face.position.x) * w + 180 ∧
      (updateHUD prev face w h).translateY = face.position.y * h - 50 ∧
      (updateHUD prev face w h).opacity = 1 ∧
      (updateHUD prev face w h).systemStatus = "ONLINE") ∧
    (face.detected = true → face.position.x = 0.2 → face.position.y = 0.3 →
      w = 1000 → h = 800 →
      (updateHUD prev face w h).translateX = 980 ∧
      (updateHUD prev face w h).translateY = 190) ∧
    (face.detected = false →
      (updateHUD prev face w h).opacity = 0.3 ∧
      (updateHUD prev face w h).systemStatus = "SEARCHING...") := by
  refine ⟨?_, ?_, ?_⟩
  · intro hdet
    refine ⟨?_, ?_, ?_, ?_⟩
    · simp [updateHUD, hdet]
    · simp only [updateHUD, hdet, if_true]
      ring
    · simp [updateHUD, hdet]
    · simp [updateHUD, hdet]
  · intro hdet hx hy hw hh
    simp only [updateHUD, hdet, if_true, hx, hy, hw, hh]
    constructor
    · norm_num
    · norm_num
  · intro hdet
    simp [updateHUD, hdet]

/-- Witness for C7 at a concrete input: the scenario face at (0.2, 0.3)
on a 1000 by 800 viewport. -/
theorem C7_hud_projection_witness :
    (updateHUD { translateX := 0, translateY := 0, opacity := 0, systemStatus := "STANDBY" }
        { detected := true, position := { x := 0.2, y := 0.3, z := 0 }, tilt := 0 }
        1000 800).translateX = 980 ∧
    (updateHUD { translateX := 0, translateY := 0, opacity := 0, systemStatus := "STANDBY" }
        { detected := true, position := { x := 0.2, y := 0.3, z := 0 }, tilt := 0 }
        1000 800).translateY = 190 := by
  exact (C7_hud_projection
    { translateX := 0, translateY := 0, opacity := 0, systemStatus := "STANDBY" }
    { detected := true, position := { x := 0.2, y := 0.3, z := 0 }, tilt := 0 }
    1000 800).2.1 rfl rfl rfl rfl rfl

/-- Claim C8: every reachable `FaceData` — the initial record and the
record after any sequence of inference ticks, detection or loss — has
`tilt = 0`. -/
theorem C8_tilt_always_zero (s : FaceData) (hr : FaceReachable s) : s.tilt = 0 := by
  induction hr with
  | init => rfl
  | step t r _ ih =>
      cases r with
      | nil => exact ih
      | cons f rest => rfl

/-- Witness for C8 at a concrete reachable state: the state after one
detection tick from the initial record. -/
theorem C8_tilt_always_zero_witness :
    (faceTick initialFaceData [fun _ => { x := 0.3, y := 0.4, z := 0 }]).tilt = 0 := by
  exact C8_tilt_always_zero _
    (FaceReachable.step initialFaceData [fun _ => { x := 0.3, y := 0.4, z := 0 }]
      FaceReachable.init)

/-- Claim C9: each component of the scale moves toward the target by the
fixed damping factor 0.1 per frame — the new value is
`current + 0.1 * (target - current)`, the distance to the target shrinks
by the factor 0.9 exactly, and the value never overshoots the target; the
mesh scale update is exactly this lerp toward the uniform target vector. -/
theorem C9_scale_smoothing (current w : Vector3) (t : ℝ) :
    scaleLerpStep current t = Vector3.lerp current { x := t, y := t, z := t } 0.1 ∧
    (Vector3.lerp current w 0.1).x = current.x + 0.1 * (w.x - current.x) ∧
    (Vector3.lerp current w 0.1).y = current.y + 0.1 * (w.y - current.y) ∧
    (Vector3.lerp current w 0.1).z = current.z + 0.1 * (w.z - current.z) ∧
    |w.x - (Vector3.lerp current w 0.1).x| = 0.9 * |w.x - current.x| ∧
    |w.y - (Vector3.lerp current w 0.1).y| = 0.9 * |w.y - current.y| ∧
    |w.z - (Vector3.lerp current w 0.1).z| = 0.9 * |w.z - current.z| ∧
    (current.x ≤ w.x → (Vector3.lerp current w 0.1).x ≤ w.x) ∧
    (w.x ≤ current.x → w.x ≤ (Vector3.lerp current w 0.1).x) ∧
    (current.y ≤ w.y → (Vector3.lerp current w 0.1).y ≤ w.y) ∧
    (w.y ≤ current.y → w.y ≤ (Vector3.lerp current w 0.1).y) ∧
    (current.z ≤ w.z → (Vector3.lerp current w 0.1).z ≤ w.z) ∧
    (w.z ≤ current.z → w.z ≤ (Vector3.lerp current w 0.1).z) := by
  have hstep : ∀ c tgt : ℝ,
      (c + (tgt - c) * 0.1 = c + 0.1 * (tgt - c)) ∧
      |tgt - (c + (tgt - c) * 0.1)| = 0.9 * |tgt - c| ∧
      (c ≤ tgt → c + (tgt - c) * 0.1 ≤ tgt) ∧
      (tgt ≤ c → tgt ≤ c + (tgt - c) * 0.1) := by
    intro c tgt
    refine ⟨by ring, ?_, ?_, ?_⟩
    · have h1 : tgt - (c + (tgt - c) * 0.1) = 0.9 * (tgt - c) := by ring
      rw [h1, abs_mul]
      have h2 : |(0.9 : ℝ)| = 0.9 := abs_of_nonneg (by norm_num)
      rw [h2]
    · intro hle; nlinarith [hle]
    · intro hle; nlinarith [hle]
  refine ⟨rfl, (hstep current.x w.x).1, (hstep current.y w.y).1, (hstep current.z w.z).1,
    (hstep current.x w.x).2.1, (hstep current.y w.y).2.1, (hstep current.z w.z).2.1,
    (hstep current.x w.x).2.2.1, (hstep current.x w.x).2.2.2,
    (hstep current.y w.y).2.2.1, (hstep current.y w.y).2.2.2,
    (hstep current.z w.z).2.2.1, (hstep current.z w.z).2.2.2⟩

/-- Witness for C9 at concrete vectors: lerping from (0,0,0) toward
(1,1,1) by 0.1 stays below the target. -/
theorem C9_scale_smoothing_witness :
    (Vector3.lerp { x := 0, y := 0, z := 0 } { x := 1, y := 1, z := 1 } 0.1).x ≤ 1 := by
  have h := (C9_scale_smoothing { x := 0, y := 0, z := 0 } { x := 1, y := 1, z := 1 }
    1).2.2.2.2.2.2.2.1
  exact h (by norm_num)

/-- Claim C10: in every reachable `HandData` — the initial record and the
record after any sequence of inference ticks, stale-on-loss included —
`isPinching = true` implies `pinchDistance < 0.05`; the converse fails at
the initial record, which has `pinchDistance = 0 < 0.05` but
`isPinching = false`. -/
theorem C10_pinch_invariant :
    (∀ s : HandData, HandReachable s → s.isPinching = true →
      s.pinchDistance < 0.05) ∧
    HandReachable initialHandData ∧
    initialHandData.pinchDistance = 0 ∧
    initialHandData.pinchDistance < 0.05 ∧
    initialHandData.isPinching = false := by
  refine ⟨?_, HandReachable.init, rfl, by norm_num [initialHandData], rfl⟩
  intro s hr
  induction hr with
  | init =>
      intro hpinch
      exact absurd hpinch (by simp [initialHandData])
  | step t r ht ih =>
      cases r with
      | nil =>
          intro hpinch
          exact ih hpinch
      | cons f rest =>
          intro hpinch
          have := of_decide_eq_true hpinch
          exact this

/-- Witness for C10 at a concrete reachable state: after one detection
tick whose thumb tip and index tip coincide, the record is pinching and
its pinch distance is below 0.05. -/
theorem C10_pinch_invariant_witness :
    (handTick initialHandData [fun _ => { x := 0, y := 0, z := 0 }]).pinchDistance < 0.05 := by
  apply C10_pinch_invariant.1
    (handTick initialHandData [fun _ => { x := 0, y := 0, z := 0 }])
    (HandReachable.step initialHandData [fun _ => { x := 0, y := 0, z := 0 }]
      HandReachable.init)
  show decide _ = true
  rw [decide_eq_true_eq]
  show Real.sqrt ((0 - 0) ^ 2 + (0 - 0) ^ 2) < 0.05
  rw [show ((0 : ℝ) - 0) ^ 2 + (0 - 0) ^ 2 = 0 by ring, Real.sqrt_zero]
  norm_num

end JarvisAR
